import Mathlib

/-!
Verification of the family_expenses repository: a shallow embedding of the
Splitwise client module (`src/splitwise_client.py`) and the OAuth bootstrap
script (`get_gdrive_token.py`), together with theorems settling the
specification's claims about pagination, serialization, the dashboard
transform, and the bootstrap CLI.

Python values flowing through the program (JSON-like data, pandas cells,
Splitwise API objects) are embedded as the inductive type `Value`; pandas
DataFrames become `DataFrame` (a column list plus rows of association
lists, where an absent key models a NaN cell); fallible steps return
`Except`.  Pandas primitives (`pd.to_datetime`, `pd.to_numeric`,
`.dt.to_period("M").dt.to_timestamp()`, `.dt.strftime("%Y-%m")`) are
modelled on ISO `YYYY-MM-DD` date strings and plain decimal number
strings, the formats the Splitwise API produces and the spec exercises.
-/

namespace FamilyExpenses

/-- A calendar date (models a parsed pandas Timestamp at day resolution). -/
structure Date where
  year : Nat
  month : Nat
  day : Nat

/-- Embedding of the Python/pandas values the program manipulates.
`null` covers Python `None` and pandas `NaN`/`NaT`; `obj` is an object
carrying a `__dict__` of member fields; `other` is an object with no
`__dict__`, remembered by its `str(...)` rendering; `date` and `num` are
the parsed cell values produced by `pd.to_datetime` / `pd.to_numeric`. -/
inductive Value where
  | null
  | bool (b : Bool)
  | int (n : Int)
  | num (q : Rat)
  | str (s : String)
  | date (d : Date)
  | list (xs : List Value)
  | dict (kvs : List (String × Value))
  | obj (fields : List (String × Value))
  | other (s : String)

/-- First-match lookup in an association list (Python `dict` key lookup /
attribute lookup in an object's `__dict__`). -/
def lookupPairs : List (String × Value) → String → Option Value
  | [], _ => none
  | (k, v) :: rest, key => if k = key then some v else lookupPairs rest key

/-- Python truthiness (`bool(x)`), as used by the `or` in
`_extract_category_name`. -/
def pyTruthy : Value → Bool
  | .null => false
  | .bool b => b
  | .int n => n != 0
  | .num q => q != 0
  | .str s => !s.isEmpty
  | .list xs => !xs.isEmpty
  | .dict kvs => !kvs.isEmpty
  | .obj _ => true
  | .other _ => true
  | .date _ => true

/-- `x is None` / `pd.isna` on a cell. -/
def Value.isNull : Value → Bool
  | .null => true
  | _ => false

/-- Elementwise Python comparison `x == False`, as used by the payment
filter `df[df["payment"] == False]`.  `False` compares equal to the
numbers `0` and `0.0`; `NaN`, strings and every other value compare
unequal. -/
def Value.eqFalse : Value → Bool
  | .bool b => !b
  | .int n => n == 0
  | .num q => q == 0
  | _ => false

/-- `x == True` elementwise (a boolean cell holding `True`). -/
def Value.isTrue : Value → Bool
  | .bool b => b
  | _ => false

/-! ### `_serialize_object` (splitwise_client.py lines 9-34) -/

mutual
/-- Embedding of `_serialize_object`: recursively serialize Splitwise
objects to JSON-friendly values.  `None` and primitives pass through,
lists are mapped element-wise, dicts value-wise, an object with a
`__dict__` becomes the serialization of that dict, and anything else
falls back to its string representation. -/
def serialize_object : Value → Value
  | .null => .null
  | .bool b => .bool b
  | .int n => .int n
  | .num q => .num q
  | .str s => .str s
  | .date d => .date d
  | .list xs => .list (serializeElems xs)
  | .dict kvs => .dict (serializeFields kvs)
  | .obj fields => .dict (serializeFields fields)
  | .other s => .str s

/-- `[_serialize_object(item) for item in obj]`. -/
def serializeElems : List Value → List Value
  | [] => []
  | x :: xs => serialize_object x :: serializeElems xs

/-- `{k: _serialize_object(v) for k, v in ...}`. -/
def serializeFields : List (String × Value) → List (String × Value)
  | [] => []
  | (k, v) :: rest => (k, serialize_object v) :: serializeFields rest
end

mutual
/-- A value is a tree of primitives, ordered sequences and mappings only:
no unreduced objects (`obj`) and no opaque foreign values (`other`). -/
def isSerialized : Value → Bool
  | .null => true
  | .bool _ => true
  | .int _ => true
  | .num _ => true
  | .str _ => true
  | .date _ => true
  | .list xs => isSerializedElems xs
  | .dict kvs => isSerializedFields kvs
  | .obj _ => false
  | .other _ => false

def isSerializedElems : List Value → Bool
  | [] => true
  | x :: xs => isSerialized x && isSerializedElems xs

def isSerializedFields : List (String × Value) → Bool
  | [] => true
  | (_, v) :: rest => isSerialized v && isSerializedFields rest
end

/-! ### Parsing primitives used by the dashboard transform -/

/-- Numeric value of a decimal digit character. -/
def digitVal (c : Char) : Option Nat :=
  if c.isDigit then some (c.toNat - 48) else none

/-- Gregorian leap-year test. -/
def isLeapYear (y : Nat) : Bool :=
  (y % 4 == 0 && y % 100 != 0) || (y % 400 == 0)

/-- Number of days in a month of a given year. -/
def daysInMonth (y m : Nat) : Nat :=
  if m == 2 then (if isLeapYear y then 29 else 28)
  else if m == 4 || m == 6 || m == 9 || m == 11 then 30
  else 31

/-- Value of a nonempty, all-digit character run (most significant first),
accumulated onto `acc`; `none` if any character is not a digit. -/
def digitsVal : List Char → Nat → Option Nat
  | [], acc => some acc
  | c :: rest, acc => do
    let d ← digitVal c
    digitsVal rest (acc * 10 + d)

/-- Parse an ISO `YYYY-MM-DD` date, optionally followed by a time suffix
introduced by `T` or a space (the Splitwise API's timestamp format),
validating month and day ranges.  Models the scalar behaviour of
`pd.to_datetime` on the date strings this program encounters. -/
def parseDateStr (s : String) : Option Date :=
  match s.data with
  | c1 :: c2 :: c3 :: c4 :: h1 :: c5 :: c6 :: h2 :: c7 :: c8 :: rest => do
    let a ← digitVal c1
    let b ← digitVal c2
    let c ← digitVal c3
    let d ← digitVal c4
    let e ← digitVal c5
    let f ← digitVal c6
    let g ← digitVal c7
    let h ← digitVal c8
    guard (h1 == '-' && h2 == '-')
    guard (rest.isEmpty || rest.head? == some 'T' || rest.head? == some ' ')
    let y := ((a * 10 + b) * 10 + c) * 10 + d
    let mo := e * 10 + f
    let dy := g * 10 + h
    guard (1 ≤ mo && mo ≤ 12 && 1 ≤ dy && dy ≤ daysInMonth y mo)
    pure ⟨y, mo, dy⟩
  | _ => none

/-- Split a character list at the first `.` (decimal point), returning the
part before it and, when a point is present, the part after it. -/
def splitOnDot : List Char → List Char × Option (List Char)
  | [] => ([], none)
  | c :: rest =>
    if c == '.' then ([], some rest)
    else
      let (a, b) := splitOnDot rest
      (c :: a, b)

/-- Parse a plain decimal number string (optional sign, digits, optional
fractional part) into a rational.  Models the scalar behaviour of
`pd.to_numeric` on the cost strings this program encounters. -/
def parseNumStr (s : String) : Option Rat := do
  let (sign, cs) : Rat × List Char :=
    match s.data with
    | '-' :: rest => (-1, rest)
    | '+' :: rest => (1, rest)
    | cs => (1, cs)
  let (ip, fpOpt) := splitOnDot cs
  match fpOpt with
  | none =>
    guard (!ip.isEmpty)
    let n ← digitsVal ip 0
    pure (sign * (n : Rat))
  | some fp =>
    guard (!(ip.isEmpty && fp.isEmpty))
    let n ← digitsVal ip 0
    let f ← digitsVal fp 0
    pure (sign * ((n : Rat) + (f : Rat) / (10 : Rat) ^ fp.length))

/-- Elementwise `pd.to_datetime(..., errors="coerce")`: date strings parse
to dates, existing dates pass through, everything unparseable coerces to
`NaT` (modelled as `null`). -/
def toDatetime : Value → Value
  | .date d => .date d
  | .str s =>
    match parseDateStr s with
    | some d => .date d
    | none => .null
  | _ => .null

/-- Elementwise `pd.to_numeric(..., errors="coerce")`: numbers and numeric
strings parse to numerics, booleans coerce to 0/1, everything unparseable
coerces to `NaN` (modelled as `null`). -/
def toNumeric : Value → Value
  | .int n => .num (n : Rat)
  | .num q => .num q
  | .bool b => .num (if b then 1 else 0)
  | .str s =>
    match parseNumStr s with
    | some q => .num q
    | none => .null
  | _ => .null

/-- Zero-pad a natural number to two digits (`%m`). -/
def pad2 (n : Nat) : String :=
  if n < 10 then "0" ++ toString n else toString n

/-- Zero-pad a natural number to four digits (`%Y`). -/
def pad4 (n : Nat) : String :=
  if n < 10 then "000" ++ toString n
  else if n < 100 then "00" ++ toString n
  else if n < 1000 then "0" ++ toString n
  else toString n

/-- Elementwise `.dt.to_period("M").dt.to_timestamp()`: truncate a date to
the first day of its calendar month (`NaT` stays `NaT`). -/
def toPeriodMonthStart : Value → Value
  | .date d => .date ⟨d.year, d.month, 1⟩
  | _ => .null

/-- Elementwise `.dt.strftime("%Y-%m")`. -/
def strftimeYM : Value → Value
  | .date d => .str (pad4 d.year ++ "-" ++ pad2 d.month)
  | _ => .null

/-! ### DataFrames -/

/-- A DataFrame row: an association list of column name to cell value.
A key absent from the row models a NaN cell in that column. -/
abbrev Row := List (String × Value)

/-- Read a cell; an absent key reads as `null` (NaN). -/
def Row.get : Row → String → Value
  | [], _ => .null
  | (k, v) :: rest, c => if k = c then v else Row.get rest c

/-- Write a cell, replacing the first binding of the key or appending a
new binding. -/
def Row.set : Row → String → Value → Row
  | [], c, v => [(c, v)]
  | (k, w) :: rest, c, v =>
    if k = c then (k, v) :: rest else (k, w) :: Row.set rest c v

/-- A pandas DataFrame: an ordered column list and a list of rows. -/
structure DataFrame where
  cols : List String
  rows : List Row

/-- `df.empty`: true when either axis has length zero. -/
def DataFrame.isEmpty (df : DataFrame) : Bool :=
  df.rows.isEmpty || df.cols.isEmpty

/-- Row selection `df[mask]`. -/
def DataFrame.filterRows (df : DataFrame) (p : Row → Bool) : DataFrame :=
  ⟨df.cols, df.rows.filter p⟩

/-- Columnwise update `df[c] = f(df[c])` on an existing column. -/
def DataFrame.mapCol (df : DataFrame) (c : String) (f : Value → Value) : DataFrame :=
  ⟨df.cols, df.rows.map (fun r => Row.set r c (f (Row.get r c)))⟩

/-- Append a column name unless already present. -/
def addColName (cols : List String) (c : String) : List String :=
  if cols.contains c then cols else cols ++ [c]

/-- Column assignment `df[c] = <series computed from each row>`. -/
def DataFrame.assignCol (df : DataFrame) (c : String) (f : Row → Value) : DataFrame :=
  ⟨addColName df.cols c, df.rows.map (fun r => Row.set r c (f r))⟩

/-- Column projection `df[cs]`. -/
def DataFrame.select (df : DataFrame) (cs : List String) : DataFrame :=
  ⟨cs, df.rows.map (fun r => cs.map (fun c => (c, Row.get r c)))⟩

/-! ### `_extract_category_name` (splitwise_client.py lines 153-160) -/

/-- Python `getattr(x, "name", None)`: the `name` member of an object's
`__dict__`, and the default `None` for every other shape (dicts, strings,
numbers and `None` itself have no `name` attribute). -/
def getattrName : Value → Value
  | .obj fields =>
    match lookupPairs fields "name" with
    | some v => v
    | none => .null
  | _ => .null

/-- Embedding of `_extract_category_name`:
`getattr(category, "name", None) or (category.get("name") if
isinstance(category, dict) else None)`, with Python `or` returning its
first operand when truthy.  No lookup here can raise, so the `except`
branch of the source is unreachable. -/
def extractCategoryName (category : Value) : Value :=
  let g := getattrName category
  if pyTruthy g then g
  else
    match category with
    | .dict kvs =>
      match lookupPairs kvs "name" with
      | some v => v
      | none => .null
    | _ => .null

/-! ### `process_for_dashboard` (splitwise_client.py lines 98-150) -/

/-- The dashboard column whitelist of `process_for_dashboard`. -/
def wantedColumns : List String :=
  ["id", "description", "cost", "currency_code", "date", "category_name"]

/-- The payment filter step: `df[df["payment"] == False]`, together with
the removed-record count `len(df) - len(expenses_only)` that the source
reports. -/
def paymentStep (df : DataFrame) : DataFrame × Nat :=
  let expensesOnly := df.filterRows (fun r => (Row.get r "payment").eqFalse)
  (expensesOnly, df.rows.length - expensesOnly.rows.length)

/-- Embedding of `process_for_dashboard`.  An empty input returns a copy
unchanged.  Otherwise: filter payments, coerce-and-drop on dates and
costs, derive `category_name`, project to the wanted columns — each of
these five steps guarded by a column-presence check — and finally derive
the month columns.  The month derivation reads `df["date"]` with no
guard, so when the projected frame has no `date` column it raises a
`KeyError`, embedded as `Except.error`. -/
def process_for_dashboard (raw : DataFrame) : Except String DataFrame :=
  if raw.isEmpty then .ok raw
  else
    let df1 := if raw.cols.contains "payment" then (paymentStep raw).1 else raw
    let df2 :=
      if df1.cols.contains "date" then
        (df1.mapCol "date" toDatetime).filterRows (fun r => !(Row.get r "date").isNull)
      else df1
    let df3 :=
      if df2.cols.contains "cost" then
        (df2.mapCol "cost" toNumeric).filterRows (fun r => !(Row.get r "cost").isNull)
      else df2
    let df4 :=
      if df3.cols.contains "category" then
        df3.assignCol "category_name" (fun r => extractCategoryName (Row.get r "category"))
      else df3
    let wanted := wantedColumns.filter (fun c => df4.cols.contains c)
    let df5 := df4.select wanted
    if df5.cols.contains "date" then
      let df6 := df5.assignCol "month" (fun r => toPeriodMonthStart (Row.get r "date"))
      let df7 := df6.assignCol "month_str" (fun r => strftimeYM (Row.get r "month"))
      .ok df7
    else
      .error "KeyError: date"

/-! ### `get_raw_expenses` pagination loop (splitwise_client.py lines 78-93) -/

/-- The fixed page size of the pagination loop. -/
def BATCH_SIZE : Nat := 100

/-- The pagination loop of `get_raw_expenses`.  `source limit offset` is
the paginated collaborator (`client.getExpenses(limit=..., offset=...)`).
Each iteration requests one page, appends `(limit, offset)` to the
request log, stops when a page is empty, and otherwise accumulates the
page and advances the offset by the batch size.  `fuel` bounds the number
of iterations so the definition is total; `none` means the fuel ran out
before an empty page was returned (the source loop would still be
running). -/
def fetchLoop (source : Nat → Nat → List α) :
    Nat → Nat → List α → List (Nat × Nat) → Option (List α × List (Nat × Nat))
  | 0, _, _, _ => none
  | fuel + 1, offset, acc, log =>
    let batch := source BATCH_SIZE offset
    if batch.isEmpty then some (acc, log ++ [(BATCH_SIZE, offset)])
    else fetchLoop source fuel (offset + BATCH_SIZE) (acc ++ batch) (log ++ [(BATCH_SIZE, offset)])

/-- Embedding of the fetch of `get_raw_expenses`: run the pagination loop
from offset 0 with empty accumulator and log, returning the accumulated
records in request order together with the `(limit, offset)` request log.
(The source function then serializes the records and wraps them in a
DataFrame; the claims about that part are settled against
`serialize_object` directly.) -/
def get_raw_expenses (source : Nat → Nat → List α) (fuel : Nat) :
    Option (List α × List (Nat × Nat)) :=
  fetchLoop source fuel 0 [] []

/-! ### OAuth bootstrap CLI (get_gdrive_token.py) -/

/-- The observable outcome of running the bootstrap script: exit with
status 1 after printing the usage message, exit with status 1 after an
explanatory message or traceback, or reach the interactive browser flow
with the chosen client id. -/
inductive BootOutcome where
  | exitUsage
  | exitError
  | launchFlow (clientId : String)

/-- The process exit status an outcome produces, when it exits. -/
def BootOutcome.exitStatus : BootOutcome → Option Nat
  | .exitUsage => some 1
  | .exitError => some 1
  | .launchFlow _ => none

/-- The state of the credentials file named on the command line:
missing (`FileNotFoundError`, caught and reported), unreadable or not
valid JSON (`json.load` raises, unhandled — the interpreter exits with
status 1), or a parsed top-level JSON object. -/
inductive CredFile where
  | missing
  | invalid
  | json (kvs : List (String × Value))

/-- Embedding of `get_refresh_token` up to the interactive flow: report
and exit on a missing file; die with status 1 on an unparseable file;
pick the `installed` block, else the `web` block, else report an invalid
format and exit; then read `client_info["client_id"]` (a `KeyError` or
`TypeError` here is unhandled and also exits with status 1) and proceed
to the browser flow. -/
def get_refresh_token : CredFile → BootOutcome
  | .missing => .exitError
  | .invalid => .exitError
  | .json kvs =>
    let clientInfo :=
      match lookupPairs kvs "installed" with
      | some c => some c
      | none => lookupPairs kvs "web"
    match clientInfo with
    | none => .exitError
    | some c =>
      match c with
      | .dict fields =>
        match lookupPairs fields "client_id" with
        | some (.str cid) => .launchFlow cid
        | _ => .exitError
      | _ => .exitError

/-- Embedding of the `__main__` block: `sys.argv` must have exactly two
entries (program name plus one positional argument), else print usage and
exit with status 1; otherwise run `get_refresh_token` on the named
file. -/
def bootstrapMain (argv : List String) (file : CredFile) : BootOutcome :=
  if argv.length ≠ 2 then .exitUsage
  else get_refresh_token file

/-! ### Row-level description of the dashboard transform

The transform is a chain of columnwise DataFrame operations; the claims
speak about it per record.  `keepRow` says which input rows survive and
`rowStage` what each surviving row becomes; the characterization theorem
`process_ok_rows` below proves the transform equal to
`filter keepRow` followed by `map rowStage`. -/

/-- The date-parse and cost-parse survival conditions of a row (each
trivially true when its column is absent). -/
def keepDateCost (cols : List String) (r : Row) : Bool :=
  (!cols.contains "date" || !(toDatetime (Row.get r "date")).isNull)
  && (!cols.contains "cost" || !(toNumeric (Row.get r "cost")).isNull)

/-- A row survives the transform iff it passes the payment filter and
both parse filters (each filter trivially true when its column is
absent). -/
def keepRow (cols : List String) (r : Row) : Bool :=
  (!cols.contains "payment" || (Row.get r "payment").eqFalse) && keepDateCost cols r

/-- The projected column list: the wanted columns present after the
category step. -/
def stageCols (cols : List String) : List String :=
  let cols2 := if cols.contains "category" then addColName cols "category_name" else cols
  wantedColumns.filter (fun c => cols2.contains c)

/-- What a surviving row becomes: dates and costs coerced, the category
name derived, the row projected to the wanted columns, and the month
columns added. -/
def rowStage (cols : List String) (r : Row) : Row :=
  let r1 := if cols.contains "date" then Row.set r "date" (toDatetime (Row.get r "date")) else r
  let r2 := if cols.contains "cost" then Row.set r1 "cost" (toNumeric (Row.get r1 "cost")) else r1
  let r3 :=
    if cols.contains "category" then
      Row.set r2 "category_name" (extractCategoryName (Row.get r2 "category"))
    else r2
  let r4 := (stageCols cols).map (fun c => (c, Row.get r3 c))
  let r5 := Row.set r4 "month" (toPeriodMonthStart (Row.get r4 "date"))
  Row.set r5 "month_str" (strftimeYM (Row.get r5 "month"))

/-! ### Helper lemmas -/

theorem Row.get_set_self (r : Row) (c : String) (v : Value) :
    Row.get (Row.set r c v) c = v := by
  induction r with
  | nil => simp [Row.get, Row.set]
  | cons kv rest ih =>
    obtain ⟨k, w⟩ := kv
    by_cases h : k = c <;> simp [Row.get, Row.set, h, ih]

theorem Row.get_set_of_ne (r : Row) {c c' : String} (h : c' ≠ c) (v : Value) :
    Row.get (Row.set r c v) c' = Row.get r c' := by
  induction r with
  | nil => simp [Row.get, Row.set, Ne.symm h]
  | cons kv rest ih =>
    obtain ⟨k, w⟩ := kv
    by_cases hk : k = c
    · subst hk
      simp [Row.get, Row.set, Ne.symm h]
    · by_cases hk' : k = c' <;> simp [Row.get, Row.set, hk, hk', h, ih]

/-- Reading a projected row: the cell of a listed column is the source
row's cell, the cell of an unlisted column is absent. -/
theorem Row.get_proj (cs : List String) (f : String → Value) (c : String) :
    Row.get (cs.map (fun c' => (c', f c'))) c = if cs.contains c then f c else Value.null := by
  induction cs with
  | nil => simp [Row.get]
  | cons c' rest ih =>
    by_cases h : c' = c
    · simp [Row.get, List.contains_cons, h, ih, beq_iff_eq]
    · simp [Row.get, List.contains_cons, h, Ne.symm h, ih, beq_iff_eq]

/-- A coerced date cell that is not `NaT` is a date. -/
theorem toDatetime_not_null {v : Value} (h : (toDatetime v).isNull = false) :
    ∃ d, toDatetime v = Value.date d := by
  cases v with
  | str s =>
    cases hp : parseDateStr s with
    | none => simp [toDatetime, hp, Value.isNull] at h
    | some d => exact ⟨d, by simp [toDatetime, hp]⟩
  | date d => exact ⟨d, rfl⟩
  | null => simp [toDatetime, Value.isNull] at h
  | bool b => simp [toDatetime, Value.isNull] at h
  | int n => simp [toDatetime, Value.isNull] at h
  | num q => simp [toDatetime, Value.isNull] at h
  | list xs => simp [toDatetime, Value.isNull] at h
  | dict kvs => simp [toDatetime, Value.isNull] at h
  | obj fields => simp [toDatetime, Value.isNull] at h
  | other s => simp [toDatetime, Value.isNull] at h

/-- A coerced cost cell that is not `NaN` is a numeric. -/
theorem toNumeric_not_null {v : Value} (h : (toNumeric v).isNull = false) :
    ∃ q, toNumeric v = Value.num q := by
  cases v with
  | str s =>
    cases hp : parseNumStr s with
    | none => simp [toNumeric, hp, Value.isNull] at h
    | some q => exact ⟨q, by simp [toNumeric, hp]⟩
  | int n => exact ⟨_, rfl⟩
  | num q => exact ⟨q, rfl⟩
  | bool b => exact ⟨_, rfl⟩
  | null => simp [toNumeric, Value.isNull] at h
  | date d => simp [toNumeric, Value.isNull] at h
  | list xs => simp [toNumeric, Value.isNull] at h
  | dict kvs => simp [toNumeric, Value.isNull] at h
  | obj fields => simp [toNumeric, Value.isNull] at h
  | other s => simp [toNumeric, Value.isNull] at h


theorem filter_map_comm (l : List α) (f : α → β) (p : β → Bool) :
    (l.map f).filter p = (l.filter (fun a => p (f a))).map f := by
  induction l with
  | nil => rfl
  | cons a rest ih => by_cases h : p (f a) <;> simp [h, ih]

theorem filter_and (l : List α) (p q : α → Bool) :
    (l.filter p).filter q = l.filter (fun a => p a && q a) := by
  induction l with
  | nil => rfl
  | cons a rest ih => by_cases hp : p a <;> by_cases hq : q a <;> simp [hp, hq, ih]

theorem contains_iff (l : List String) (a : String) : l.contains a = true ↔ a ∈ l :=
  List.elem_iff

theorem addColName_contains_ne (cols : List String) {c c' : String} (h : c' ≠ c) :
    (addColName cols c).contains c' = cols.contains c' := by
  unfold addColName
  split
  · rfl
  · apply Bool.coe_iff_coe.mp
    simp [contains_iff, List.mem_append, h]

theorem wanted_filter_contains (cs : List String) (c : String)
    (hw : wantedColumns.contains c = true) :
    (wantedColumns.filter (fun c' => cs.contains c')).contains c = cs.contains c := by
  apply Bool.coe_iff_coe.mp
  simp only [contains_iff, List.mem_filter]
  constructor
  · rintro ⟨-, hp⟩
    exact hp
  · intro hcs
    exact ⟨(contains_iff ..).mp hw, hcs⟩

theorem wf_contains_date (cs : List String) :
    (wantedColumns.filter (fun c' => cs.contains c')).contains "date" = cs.contains "date" :=
  wanted_filter_contains cs "date" (by decide)

theorem wf_contains_cost (cs : List String) :
    (wantedColumns.filter (fun c' => cs.contains c')).contains "cost" = cs.contains "cost" :=
  wanted_filter_contains cs "cost" (by decide)

theorem addCat_contains_date (cols : List String) :
    (addColName cols "category_name").contains "date" = cols.contains "date" :=
  addColName_contains_ne cols (by decide)

theorem addCat_contains_cost (cols : List String) :
    (addColName cols "category_name").contains "cost" = cols.contains "cost" :=
  addColName_contains_ne cols (by decide)

theorem filter_map_congr {p q : α → Bool} {f g : α → β} (l : List α)
    (hp : ∀ a, p a = q a) (hf : ∀ a, f a = g a) :
    (l.filter p).map f = (l.filter q).map g := by
  induction l with
  | nil => rfl
  | cons a rest ih =>
    by_cases h : p a
    · rw [List.filter_cons_of_pos h, List.filter_cons_of_pos (by rw [← hp a]; exact h)]
      simp [hf a, ih]
    · rw [List.filter_cons_of_neg h, List.filter_cons_of_neg (by rw [← hp a]; exact h)]
      exact ih

/-- Characterization of the dashboard transform at row level: whenever the
input has at least one column and the transform succeeds, the output rows
are exactly the input rows surviving `keepRow`, each transformed by
`rowStage`, in input order. -/
theorem process_ok_rows {raw out : DataFrame} (hcols : raw.cols ≠ [])
    (h : process_for_dashboard raw = .ok out) :
    out.rows = (raw.rows.filter (keepRow raw.cols)).map (rowStage raw.cols) := by
  obtain ⟨cols, rows⟩ := raw
  simp only at hcols ⊢
  by_cases he : (DataFrame.mk cols rows).isEmpty = true
  · have hrows : rows = [] := by
      simp only [DataFrame.isEmpty, Bool.or_eq_true, List.isEmpty_iff] at he
      rcases he with h1 | h2
      · exact h1
      · exact absurd h2 hcols
    rw [process_for_dashboard, if_pos he] at h
    injection h with h2
    rw [← h2]
    simp [hrows]
  · rw [process_for_dashboard, if_neg he] at h
    by_cases hdate : cols.contains "date" = true
    · by_cases hpay : cols.contains "payment" = true <;>
      by_cases hcost : cols.contains "cost" = true <;>
      by_cases hcat : cols.contains "category" = true <;>
      · simp only [paymentStep, DataFrame.filterRows, DataFrame.mapCol, DataFrame.assignCol,
          DataFrame.select, hpay, hdate, hcost, hcat, if_true, if_false,
          wf_contains_date, addCat_contains_date, Bool.false_eq_true, ite_true, ite_false,
          Except.ok.injEq] at h
        subst h
        simp only [filter_map_comm, filter_and, List.map_map, Function.comp]
        apply filter_map_congr
        · intro r
          simp only [keepRow, keepDateCost, hpay, hdate, hcost, hcat, Bool.not_true,
            Bool.not_false, Bool.false_or, Bool.true_or, Bool.true_and, Bool.and_true,
            Row.get_set_self, Row.get_set_of_ne _ (by decide : ("cost":String) ≠ "date"),
            Bool.and_assoc]
        · intro r
          simp only [Function.comp, rowStage, stageCols, hpay, hdate, hcost, hcat, if_true,
            ite_true, ite_false, Bool.false_eq_true, Row.get_set_self,
            Row.get_set_of_ne _ (by decide : ("cost":String) ≠ "date")]
    · exfalso
      by_cases hpay : cols.contains "payment" = true <;>
      by_cases hcost : cols.contains "cost" = true <;>
      by_cases hcat : cols.contains "category" = true <;>
      · simp only [paymentStep, DataFrame.filterRows, DataFrame.mapCol, DataFrame.assignCol,
          DataFrame.select, hpay, hdate, hcost, hcat, if_true, if_false,
          wf_contains_date, addCat_contains_date, Bool.false_eq_true, ite_true,
          ite_false] at h
        exact Except.noConfusion h



theorem stageCols_contains_date (cols : List String) :
    (stageCols cols).contains "date" = cols.contains "date" := by
  by_cases hcat : cols.contains "category" = true <;>
    simp only [stageCols, hcat, if_true, ite_true, ite_false, Bool.false_eq_true,
      wf_contains_date, addCat_contains_date]

theorem stageCols_contains_cost (cols : List String) :
    (stageCols cols).contains "cost" = cols.contains "cost" := by
  by_cases hcat : cols.contains "category" = true <;>
    simp only [stageCols, hcat, if_true, ite_true, ite_false, Bool.false_eq_true,
      wf_contains_cost, addCat_contains_cost]

/-- The date cell of a transformed row is the coerced date cell of the
source row. -/
theorem rowStage_get_date {cols : List String} (r : Row) (hd : cols.contains "date" = true) :
    Row.get (rowStage cols r) "date" = toDatetime (Row.get r "date") := by
  by_cases hcost : cols.contains "cost" = true <;>
  by_cases hcat : cols.contains "category" = true <;>
    simp only [rowStage, hd, hcost, hcat, if_true, ite_true, ite_false, Bool.false_eq_true,
      Row.get_set_of_ne _ (by decide : ("date":String) ≠ "month_str"),
      Row.get_set_of_ne _ (by decide : ("date":String) ≠ "month"),
      Row.get_proj, stageCols_contains_date, hd,
      Row.get_set_of_ne _ (by decide : ("date":String) ≠ "category_name"),
      Row.get_set_of_ne _ (by decide : ("date":String) ≠ "cost"),
      Row.get_set_self]

/-- The cost cell of a transformed row is the coerced cost cell of the
source row. -/
theorem rowStage_get_cost {cols : List String} (r : Row) (hc : cols.contains "cost" = true) :
    Row.get (rowStage cols r) "cost" = toNumeric (Row.get r "cost") := by
  by_cases hdate : cols.contains "date" = true <;>
  by_cases hcat : cols.contains "category" = true <;>
    simp only [rowStage, hc, hdate, hcat, if_true, ite_true, ite_false, Bool.false_eq_true,
      Row.get_set_of_ne _ (by decide : ("cost":String) ≠ "month_str"),
      Row.get_set_of_ne _ (by decide : ("cost":String) ≠ "month"),
      Row.get_proj, stageCols_contains_cost, hc,
      Row.get_set_of_ne _ (by decide : ("cost":String) ≠ "category_name"),
      Row.get_set_of_ne _ (by decide : ("cost":String) ≠ "date"),
      Row.get_set_self]

/-- The month cell of a transformed row is the coerced date truncated to
the first of its month. -/
theorem rowStage_get_month {cols : List String} (r : Row) (hd : cols.contains "date" = true) :
    Row.get (rowStage cols r) "month" = toPeriodMonthStart (toDatetime (Row.get r "date")) := by
  by_cases hcost : cols.contains "cost" = true <;>
  by_cases hcat : cols.contains "category" = true <;>
    simp only [rowStage, hd, hcost, hcat, if_true, ite_true, ite_false, Bool.false_eq_true,
      Row.get_set_of_ne _ (by decide : ("month":String) ≠ "month_str"),
      Row.get_proj, stageCols_contains_date, hd,
      Row.get_set_of_ne _ (by decide : ("date":String) ≠ "category_name"),
      Row.get_set_of_ne _ (by decide : ("date":String) ≠ "cost"),
      Row.get_set_self]

/-- The month_str cell of a transformed row renders the month cell. -/
theorem rowStage_get_month_str {cols : List String} (r : Row)
    (hd : cols.contains "date" = true) :
    Row.get (rowStage cols r) "month_str"
      = strftimeYM (toPeriodMonthStart (toDatetime (Row.get r "date"))) := by
  by_cases hcost : cols.contains "cost" = true <;>
  by_cases hcat : cols.contains "category" = true <;>
    simp only [rowStage, hd, hcost, hcat, if_true, ite_true, ite_false, Bool.false_eq_true,
      Row.get_proj, stageCols_contains_date, hd,
      Row.get_set_of_ne _ (by decide : ("date":String) ≠ "category_name"),
      Row.get_set_of_ne _ (by decide : ("date":String) ≠ "cost"),
      Row.get_set_self]

/-- The transform succeeds exactly when the input is empty or has a date
column; a non-empty input without a date column raises a `KeyError` in
the month-derivation step. -/
theorem process_isOk (raw : DataFrame) :
    (process_for_dashboard raw).isOk = (raw.isEmpty || raw.cols.contains "date") := by
  by_cases he : raw.isEmpty = true
  · simp [process_for_dashboard, he, Except.isOk, Except.toBool]
  · rw [process_for_dashboard, if_neg he]
    rw [Bool.not_eq_true] at he
    rw [he, Bool.false_or]
    by_cases hdate : raw.cols.contains "date" = true <;>
    by_cases hpay : raw.cols.contains "payment" = true <;>
    by_cases hcost : raw.cols.contains "cost" = true <;>
    by_cases hcat : raw.cols.contains "category" = true <;>
    · simp only [paymentStep, DataFrame.filterRows, DataFrame.mapCol, DataFrame.assignCol,
        DataFrame.select, hpay, hdate, hcost, hcat, if_true, if_false, ite_true, ite_false,
        Bool.false_eq_true, wf_contains_date, addCat_contains_date, Except.isOk, Except.toBool]
      try rw [hdate]
      try rw [Bool.not_eq_true] at hdate
      try rw [hdate]



/-! ### Claim C1: pagination -/

/-- Invariant of the pagination loop: starting from any offset,
accumulator and log, if the source's pages at offsets
`off, off + B, ..., off + B*(n-1)` are nonempty and the page at
`off + B*n` is empty, the loop returns the accumulator extended by those
pages in order, and the log extended by the `n + 1` requests issued. -/
theorem fetchLoop_spec (source : Nat → Nat → List α) :
    ∀ (n fuel off : Nat) (acc : List α) (log : List (Nat × Nat)),
      (∀ i, i < n → source BATCH_SIZE (off + BATCH_SIZE * i) ≠ []) →
      source BATCH_SIZE (off + BATCH_SIZE * n) = [] →
      n < fuel →
      fetchLoop source fuel off acc log =
        some (acc ++ ((List.range n).map
                (fun i => source BATCH_SIZE (off + BATCH_SIZE * i))).flatten,
              log ++ (List.range (n + 1)).map
                (fun i => (BATCH_SIZE, off + BATCH_SIZE * i))) := by
  intro n
  induction n with
  | zero =>
    intro fuel off acc log hne he hfuel
    match fuel, hfuel with
    | fuel + 1, _ =>
      rw [fetchLoop]
      simp only [Nat.mul_zero, Nat.add_zero] at he
      simp [he, List.range_succ_eq_map]
  | succ n ih =>
    intro fuel off acc log hne he hfuel
    match fuel, hfuel with
    | fuel + 1, hfuel =>
      rw [fetchLoop]
      have hb : source BATCH_SIZE off ≠ [] := by
        have := hne 0 (Nat.succ_pos n)
        simpa using this
      rw [if_neg (by simpa [List.isEmpty_iff] using hb)]
      have harith : ∀ i : Nat, off + BATCH_SIZE * (i + 1) = (off + BATCH_SIZE) + BATCH_SIZE * i := by
        intro i
        ring
      have hne' : ∀ i, i < n → source BATCH_SIZE ((off + BATCH_SIZE) + BATCH_SIZE * i) ≠ [] := by
        intro i hi
        rw [← harith i]
        exact hne (i + 1) (Nat.succ_lt_succ hi)
      have he' : source BATCH_SIZE ((off + BATCH_SIZE) + BATCH_SIZE * n) = [] := by
        rw [← harith n]
        exact he
      rw [ih fuel (off + BATCH_SIZE) (acc ++ source BATCH_SIZE off)
        (log ++ [(BATCH_SIZE, off)]) hne' he' (Nat.lt_of_succ_lt_succ hfuel)]
      have hmap1 : (List.range (n + 1)).map
            (fun i => source BATCH_SIZE (off + BATCH_SIZE * i))
          = source BATCH_SIZE off :: (List.range n).map
            (fun i => source BATCH_SIZE ((off + BATCH_SIZE) + BATCH_SIZE * i)) := by
        rw [List.range_succ_eq_map, List.map_cons, List.map_map]
        refine congrArg₂ _ (by simp) ?_
        refine List.map_congr_left fun i _ => ?_
        simp only [Function.comp]
        exact congrArg (source BATCH_SIZE) (by rw [Nat.succ_eq_add_one]; ring)
      have hmap2 : (List.range (n + 1 + 1)).map
            (fun i => (BATCH_SIZE, off + BATCH_SIZE * i))
          = (BATCH_SIZE, off) :: (List.range (n + 1)).map
            (fun i => (BATCH_SIZE, (off + BATCH_SIZE) + BATCH_SIZE * i)) := by
        rw [List.range_succ_eq_map, List.map_cons, List.map_map]
        refine congrArg₂ _ (by simp) ?_
        refine List.map_congr_left fun i _ => ?_
        simp only [Function.comp]
        exact congrArg _ (by rw [Nat.succ_eq_add_one]; ring)
      rw [hmap1, hmap2]
      simp [List.append_assoc]

/-- C1: for every paginated source that first returns an empty page at
page index `n`, the fetch of `get_raw_expenses` issues exactly `n + 1`
requests, all with page size 100 and with offsets 0, 100, ..., 100*n
(incrementing by 100 each iteration), stops at that empty page, and
returns the concatenation of the returned pages in request order; with
pages of sizes [100, 100, 37, 0] this gives exactly 4 requests at
offsets 0, 100, 200, 300 and exactly 237 records (see the witness). -/
theorem C1_pagination (source : Nat → Nat → List α) (n fuel : Nat)
    (hne : ∀ i, i < n → source BATCH_SIZE (BATCH_SIZE * i) ≠ [])
    (he : source BATCH_SIZE (BATCH_SIZE * n) = [])
    (hfuel : n < fuel) :
    get_raw_expenses source fuel =
      some (((List.range n).map (fun i => source BATCH_SIZE (BATCH_SIZE * i))).flatten,
            (List.range (n + 1)).map (fun i => (BATCH_SIZE, BATCH_SIZE * i))) := by
  have h := fetchLoop_spec source n fuel 0 [] []
    (by simpa using hne) (by simpa using he) hfuel
  simpa [get_raw_expenses] using h

/-- A fake paginated source returning pages of sizes 100, 100, 37, 0. -/
def source0 : Nat → Nat → List Nat := fun _ off =>
  if off < 200 then List.replicate 100 0
  else if off == 200 then List.replicate 37 0
  else []

set_option maxRecDepth 4000 in
theorem C1_pagination_witness :
    get_raw_expenses source0 4 =
      some (List.replicate 237 (0 : Nat), [(100, 0), (100, 100), (100, 200), (100, 300)]) := by
  have h := C1_pagination source0 3 4 (by decide) (by rfl) (by decide)
  rw [h]
  rfl



/-! ### Claim C3: serialization totality -/

mutual
theorem serialize_object_serialized : (v : Value) → isSerialized (serialize_object v) = true
  | .null => rfl
  | .bool _ => rfl
  | .int _ => rfl
  | .num _ => rfl
  | .str _ => rfl
  | .date _ => rfl
  | .list xs => by
    simp only [serialize_object, isSerialized]
    exact serializeElems_serialized xs
  | .dict kvs => by
    simp only [serialize_object, isSerialized]
    exact serializeFields_serialized kvs
  | .obj fields => by
    simp only [serialize_object, isSerialized]
    exact serializeFields_serialized fields
  | .other _ => rfl

theorem serializeElems_serialized : (xs : List Value) → isSerializedElems (serializeElems xs) = true
  | [] => rfl
  | x :: xs => by
    simp only [serializeElems, isSerializedElems, Bool.and_eq_true]
    exact ⟨serialize_object_serialized x, serializeElems_serialized xs⟩

theorem serializeFields_serialized :
    (kvs : List (String × Value)) → isSerializedFields (serializeFields kvs) = true
  | [] => rfl
  | (k, v) :: rest => by
    simp only [serializeFields, isSerializedFields, Bool.and_eq_true]
    exact ⟨serialize_object_serialized v, serializeFields_serialized rest⟩
end

/-- C3: on every acyclic input value built from primitives, `None`,
sequences, mappings and objects with member fields, `_serialize_object`
is total (the Lean embedding is a total function, and no case of the
source can raise) and returns a tree of primitives, sequences and
mappings only; primitives pass through unchanged, sequences are mapped
element-wise, mappings value-wise preserving keys, objects with member
fields become mappings over their fields, and anything else becomes its
string representation. -/
theorem C3_serialization_total :
    (∀ v : Value, isSerialized (serialize_object v) = true) ∧
    serialize_object .null = .null ∧
    (∀ b, serialize_object (.bool b) = .bool b) ∧
    (∀ n : Int, serialize_object (.int n) = .int n) ∧
    (∀ q : Rat, serialize_object (.num q) = .num q) ∧
    (∀ s, serialize_object (.str s) = .str s) ∧
    (∀ xs, serialize_object (.list xs) = .list (serializeElems xs)) ∧
    (∀ x xs, serializeElems (x :: xs) = serialize_object x :: serializeElems xs) ∧
    (∀ kvs, serialize_object (.dict kvs) = .dict (serializeFields kvs)) ∧
    (∀ k v rest, serializeFields ((k, v) :: rest) = (k, serialize_object v) :: serializeFields rest) ∧
    (∀ fields, serialize_object (.obj fields) = .dict (serializeFields fields)) ∧
    (∀ s, serialize_object (.other s) = .str s) :=
  ⟨serialize_object_serialized, rfl, fun _ => rfl, fun _ => rfl, fun _ => rfl, fun _ => rfl,
   fun _ => rfl, fun _ _ => rfl, fun _ => rfl, fun _ _ _ => rfl, fun _ => rfl, fun _ => rfl⟩

/-! ### Claim C6: empty input -/

/-- C6: an empty input table short-circuits: the transform returns the
input unchanged (an empty table), with no error and no column derivation
attempted. -/
theorem C6_empty_input (raw : DataFrame) (he : raw.isEmpty = true) :
    process_for_dashboard raw = .ok raw := by
  rw [process_for_dashboard, if_pos he]

theorem C6_empty_input_witness :
    process_for_dashboard ⟨[], []⟩ = .ok ⟨[], []⟩ :=
  C6_empty_input ⟨[], []⟩ rfl

/-! ### Claim C2: column-presence safety (corrected) -/

/-- C2 counterexample: a non-empty table without a `date` column makes
`process_for_dashboard` raise — the unguarded month-derivation step reads
`df["date"]` and fails with a `KeyError` — refuting the claim that the
transform never raises on such a table. -/
theorem C2_counterexample :
    process_for_dashboard ⟨["x"], [[("x", Value.int 1)]]⟩ = .error "KeyError: date" ∧
    DataFrame.isEmpty ⟨["x"], [[("x", Value.int 1)]]⟩ = false :=
  ⟨rfl, rfl⟩

/-- C2 amended: the payment-filter, date-parse, cost-parse,
category-extraction and projection steps are each applied only when the
relevant column is present and are silently skipped otherwise (first
conjunct below: on any successful run the output rows are exactly the
`keepRow`-survivors mapped through `rowStage`, both of which degrade to
skipping when a column is absent) — but the month-derivation step
unconditionally reads the date column, so the transform succeeds exactly
when the input is empty or has a `date` column and raises otherwise
(second conjunct). -/
theorem C2_amended_column_safety :
    (∀ raw out : DataFrame, raw.cols ≠ [] → process_for_dashboard raw = .ok out →
      out.rows = (raw.rows.filter (keepRow raw.cols)).map (rowStage raw.cols)) ∧
    (∀ raw : DataFrame,
      (process_for_dashboard raw).isOk = (raw.isEmpty || raw.cols.contains "date")) :=
  ⟨fun _ _ h1 h2 => process_ok_rows h1 h2, process_isOk⟩

/-- The one-column, one-row date table used to witness the transform
claims. -/
def dfDateOnly : DataFrame := ⟨["date"], [[("date", Value.str "2024-03-17")]]⟩

/-- The transformed row of `dfDateOnly`. -/
def dateOutRow : Row :=
  [("date", Value.date ⟨2024, 3, 17⟩), ("month", Value.date ⟨2024, 3, 1⟩),
   ("month_str", Value.str "2024-03")]

/-- The transform of `dfDateOnly`. -/
def dfDateOnlyOut : DataFrame := ⟨["date", "month", "month_str"], [dateOutRow]⟩

theorem C2_amended_column_safety_witness :
    dfDateOnlyOut.rows = (dfDateOnly.rows.filter (keepRow dfDateOnly.cols)).map
      (rowStage dfDateOnly.cols) ∧
    (process_for_dashboard dfDateOnly).isOk
      = (dfDateOnly.isEmpty || dfDateOnly.cols.contains "date") :=
  ⟨C2_amended_column_safety.1 dfDateOnly dfDateOnlyOut (by simp [dfDateOnly]) rfl,
   C2_amended_column_safety.2 dfDateOnly⟩



/-! ### Claim C4: output rows are fully parsed -/

/-- C4: when the input has payment, date and cost columns, the output
rows of the transform are exactly the input rows whose payment cell
compares equal to `False`, whose date parses and whose cost parses
(transformed by `rowStage`, in input order) — rows failing either parse
are dropped — and every output row carries an actually parsed calendar
date and an actually parsed numeric cost, never a null. -/
theorem C4_parsed_rows (raw out : DataFrame)
    (hp : raw.cols.contains "payment" = true)
    (hd : raw.cols.contains "date" = true)
    (hc : raw.cols.contains "cost" = true)
    (h : process_for_dashboard raw = .ok out) :
    out.rows = (raw.rows.filter (fun r => (Row.get r "payment").eqFalse
        && !(toDatetime (Row.get r "date")).isNull
        && !(toNumeric (Row.get r "cost")).isNull)).map (rowStage raw.cols) ∧
    ∀ r ∈ out.rows,
      (∃ d, Row.get r "date" = Value.date d) ∧ (∃ q, Row.get r "cost" = Value.num q) := by
  have hcols : raw.cols ≠ [] := by
    intro hnil
    rw [hnil] at hp
    simp [List.contains] at hp
  have hrows := process_ok_rows hcols h
  constructor
  · rw [hrows]
    apply filter_map_congr _ ?_ (fun _ => rfl)
    intro r
    simp only [keepRow, keepDateCost, hp, hd, hc, Bool.not_true, Bool.false_or,
      Bool.and_assoc]
  · intro r hrm
    rw [hrows] at hrm
    obtain ⟨r0, hr0, rfl⟩ := List.mem_map.mp hrm
    have hkeep := (List.mem_filter.mp hr0).2
    simp only [keepRow, keepDateCost, hp, hd, hc, Bool.not_true, Bool.false_or,
      Bool.and_eq_true, Bool.not_eq_true'] at hkeep
    obtain ⟨-, hdate0, hcost0⟩ := hkeep
    constructor
    · obtain ⟨d, hdd⟩ := toDatetime_not_null hdate0
      exact ⟨d, by rw [rowStage_get_date r0 hd, hdd]⟩
    · obtain ⟨q, hq⟩ := toNumeric_not_null hcost0
      exact ⟨q, by rw [rowStage_get_cost r0 hc, hq]⟩

/-- A payment/date/cost table with one clean row, one unparseable date
and one unparseable cost. -/
def dfPDC : DataFrame :=
  ⟨["payment", "date", "cost"],
   [[("payment", Value.bool false), ("date", Value.str "2024-03-17"), ("cost", Value.int 10)],
    [("payment", Value.bool false), ("date", Value.str "not-a-date"), ("cost", Value.int 10)],
    [("payment", Value.bool false), ("date", Value.str "2024-03-17"), ("cost", Value.str "abc")]]⟩

/-- The transform of `dfPDC`: only the fully parseable row survives. -/
def dfPDCOut : DataFrame :=
  ⟨["cost", "date", "month", "month_str"],
   [[("cost", Value.num ((10 : Int) : Rat)), ("date", Value.date ⟨2024, 3, 17⟩),
     ("month", Value.date ⟨2024, 3, 1⟩), ("month_str", Value.str "2024-03")]]⟩

theorem C4_parsed_rows_witness :
    dfPDCOut.rows = (dfPDC.rows.filter (fun r => (Row.get r "payment").eqFalse
        && !(toDatetime (Row.get r "date")).isNull
        && !(toNumeric (Row.get r "cost")).isNull)).map (rowStage dfPDC.cols) :=
  (C4_parsed_rows dfPDC dfPDCOut rfl rfl rfl rfl).1

/-! ### Claim C7: month derivation -/

/-- C7: every record of a (non-trivially) transformed table carries a
parsed date `d`, a month cell equal to `d` truncated to the first day of
its calendar month, and a month_str cell equal to the `YYYY-MM`
rendering of that month-start date. -/
theorem C7_month_derivation (raw out : DataFrame) (hne : raw.isEmpty = false)
    (h : process_for_dashboard raw = .ok out) :
    ∀ r ∈ out.rows, ∃ d : Date,
      Row.get r "date" = Value.date d ∧
      Row.get r "month" = Value.date ⟨d.year, d.month, 1⟩ ∧
      Row.get r "month_str" = Value.str (pad4 d.year ++ "-" ++ pad2 d.month) := by
  have hcols : raw.cols ≠ [] := by
    intro hnil
    rw [DataFrame.isEmpty, hnil] at hne
    simp at hne
  have hd : raw.cols.contains "date" = true := by
    have hok := process_isOk raw
    rw [h, hne, Bool.false_or] at hok
    exact hok.symm
  have hrows := process_ok_rows hcols h
  intro r hrm
  rw [hrows] at hrm
  obtain ⟨r0, hr0, rfl⟩ := List.mem_map.mp hrm
  have hkeep := (List.mem_filter.mp hr0).2
  simp only [keepRow, keepDateCost, hd, Bool.not_true, Bool.false_or,
    Bool.and_eq_true, Bool.not_eq_true'] at hkeep
  have hdate0 : (toDatetime (Row.get r0 "date")).isNull = false := hkeep.2.1
  obtain ⟨d, hdd⟩ := toDatetime_not_null hdate0
  refine ⟨d, ?_, ?_, ?_⟩
  · rw [rowStage_get_date r0 hd, hdd]
  · rw [rowStage_get_month r0 hd, hdd]
    rfl
  · rw [rowStage_get_month_str r0 hd, hdd]
    rfl

theorem C7_month_derivation_witness :
    Row.get dateOutRow "month" = Value.date ⟨2024, 3, 1⟩ ∧
    Row.get dateOutRow "month_str" = Value.str "2024-03" := by
  obtain ⟨d, hd1, hd2, hd3⟩ := C7_month_derivation dfDateOnly dfDateOnlyOut rfl rfl
    dateOutRow (List.mem_singleton_self _)
  have hinj : Value.date ⟨2024, 3, 17⟩ = Value.date d := by
    have : Row.get dateOutRow "date" = Value.date ⟨2024, 3, 17⟩ := rfl
    rw [← this, hd1]
  injection hinj with h17
  rw [← h17] at hd2 hd3
  exact ⟨hd2, hd3⟩

/-! ### Claim C10: the payment filter keeps only cells comparing equal to False -/

/-- C10: with a payment column present, the transform's output consists
exactly of the rows whose payment cell compares equal to the boolean
`False` (and which survive the parse filters), transformed in input
order; a null payment cell, an absent payment cell (which reads as null)
and any other non-`False` value — not only a literal `True` — all fail
the comparison and are excluded. -/
theorem C10_payment_comparison (raw out : DataFrame)
    (hp : raw.cols.contains "payment" = true)
    (h : process_for_dashboard raw = .ok out) :
    out.rows = ((raw.rows.filter (fun r => (Row.get r "payment").eqFalse)).filter
        (keepDateCost raw.cols)).map (rowStage raw.cols) ∧
    Value.eqFalse Value.null = false ∧
    (∀ s, Value.eqFalse (Value.str s) = false) ∧
    Value.eqFalse (Value.bool true) = false ∧
    Value.eqFalse (Value.bool false) = true ∧
    (∀ c, Row.get [] c = Value.null) := by
  have hcols : raw.cols ≠ [] := by
    intro hnil
    rw [hnil] at hp
    simp [List.contains] at hp
  have hrows := process_ok_rows hcols h
  refine ⟨?_, rfl, fun _ => rfl, rfl, rfl, fun _ => rfl⟩
  rw [hrows, filter_and]
  apply filter_map_congr _ ?_ (fun _ => rfl)
  intro r
  simp only [keepRow, hp, Bool.not_true, Bool.false_or]

theorem C10_payment_comparison_witness :
    dfPDCOut.rows = ((dfPDC.rows.filter (fun r => (Row.get r "payment").eqFalse)).filter
      (keepDateCost dfPDC.cols)).map (rowStage dfPDC.cols) :=
  (C10_payment_comparison dfPDC dfPDCOut rfl rfl).1



/-! ### Claim C5: the payment filter -/

theorem length_filter_split (l : List α) (p : α → Bool) :
    l.length - (l.filter p).length = (l.filter (fun a => !(p a))).length := by
  have h := List.length_eq_length_filter_add (l := l) p
  omega

/-- The spec's two-record payment example: a non-payment record followed
by an otherwise identical payment record. -/
def twoRecRow0 : Row :=
  [("payment", Value.bool false), ("cost", Value.int 10), ("date", Value.str "2024-01-05"),
   ("category", Value.dict [("name", Value.str "Food")])]

def twoRecRow1 : Row :=
  [("payment", Value.bool true), ("cost", Value.int 10), ("date", Value.str "2024-01-05"),
   ("category", Value.dict [("name", Value.str "Food")])]

def twoRecDf : DataFrame :=
  ⟨["payment", "cost", "date", "category"], [twoRecRow0, twoRecRow1]⟩

/-- The transform of `twoRecDf`: exactly the non-payment record,
transformed. -/
def twoRecOut : DataFrame :=
  ⟨["cost", "date", "category_name", "month", "month_str"],
   [[("cost", Value.num ((10 : Int) : Rat)), ("date", Value.date ⟨2024, 1, 5⟩),
     ("category_name", Value.str "Food"), ("month", Value.date ⟨2024, 1, 1⟩),
     ("month_str", Value.str "2024-01")]]⟩

/-- C5: on tables whose payment column holds the boolean
payment/settlement flag, the payment-filter step drops exactly the
records whose flag is `true` and retains the rest in input order, and
the count it reports removed is exactly the number of flag-`true`
records; in particular the spec's two-record example transforms to
exactly one record — the image of the non-payment record. -/
theorem C5_payment_filter :
    (∀ df : DataFrame, (∀ r ∈ df.rows, ∃ b, Row.get r "payment" = Value.bool b) →
      (paymentStep df).1.rows = df.rows.filter (fun r => !(Row.get r "payment").isTrue) ∧
      (paymentStep df).2 = (df.rows.filter (fun r => (Row.get r "payment").isTrue)).length) ∧
    process_for_dashboard twoRecDf = .ok twoRecOut ∧
    twoRecOut.rows = [rowStage twoRecDf.cols twoRecRow0] ∧
    twoRecOut.rows.length = 1 := by
  refine ⟨?_, rfl, rfl, rfl⟩
  intro df hb
  have hpoint : ∀ r ∈ df.rows, (Row.get r "payment").eqFalse = !(Row.get r "payment").isTrue := by
    intro r hr
    obtain ⟨b, hbr⟩ := hb r hr
    rw [hbr]
    cases b <;> rfl
  constructor
  · exact List.filter_congr hpoint
  · show df.rows.length - (df.rows.filter (fun r => (Row.get r "payment").eqFalse)).length = _
    rw [List.filter_congr hpoint, length_filter_split]
    refine congrArg List.length (List.filter_congr fun r hr => ?_)
    rw [Bool.not_not]

theorem C5_payment_filter_witness :
    (paymentStep twoRecDf).1.rows
        = twoRecDf.rows.filter (fun r => !(Row.get r "payment").isTrue) ∧
    (paymentStep twoRecDf).2
        = (twoRecDf.rows.filter (fun r => (Row.get r "payment").isTrue)).length := by
  refine C5_payment_filter.1 twoRecDf ?_
  intro r hr
  have hcases : r = twoRecRow0 ∨ r = twoRecRow1 := by
    simpa [twoRecDf] using hr
  rcases hcases with rfl | rfl
  · exact ⟨false, rfl⟩
  · exact ⟨true, rfl⟩

/-! ### Claim C8: category extraction (corrected) -/

/-- C8 counterexample: an object exposing a `name` attribute whose value
is the empty string (a falsy value).  The Python `or` in the source
discards the falsy attribute value and category extraction returns
`None`, not the category's name, refuting the claim that an object
exposing a `name` attribute always yields its name. -/
theorem C8_counterexample :
    extractCategoryName (Value.obj [("name", Value.str "")]) = Value.null ∧
    Value.null ≠ Value.str "" :=
  ⟨rfl, fun h => Value.noConfusion h⟩

/-- C8 amended: category extraction yields the category's name whenever
the category is a mapping with a `name` key (unconditionally), and
whenever it is an object whose `name` attribute value is truthy; an
object whose `name` attribute is falsy (such as an empty string) instead
yields an absent name.  A `None` category, an absent field or a wrong
shape yields an absent category name, and no case propagates an
error. -/
theorem C8_amended_category_extraction :
    (∀ kvs v, lookupPairs kvs "name" = some v →
      extractCategoryName (Value.dict kvs) = v) ∧
    (∀ fields v, lookupPairs fields "name" = some v → pyTruthy v = true →
      extractCategoryName (Value.obj fields) = v) ∧
    extractCategoryName Value.null = Value.null ∧
    (∀ kvs, lookupPairs kvs "name" = none →
      extractCategoryName (Value.dict kvs) = Value.null) ∧
    (∀ fields v, lookupPairs fields "name" = some v → pyTruthy v = false →
      extractCategoryName (Value.obj fields) = Value.null) ∧
    (∀ fields, lookupPairs fields "name" = none →
      extractCategoryName (Value.obj fields) = Value.null) ∧
    (∀ s, extractCategoryName (Value.str s) = Value.null) ∧
    (∀ n, extractCategoryName (Value.int n) = Value.null) ∧
    (∀ xs, extractCategoryName (Value.list xs) = Value.null) := by
  refine ⟨?_, ?_, rfl, ?_, ?_, ?_, fun _ => rfl, fun _ => rfl, fun _ => rfl⟩
  · intro kvs v hl
    simp [extractCategoryName, getattrName, pyTruthy, hl]
  · intro fields v hl ht
    simp [extractCategoryName, getattrName, hl, ht]
  · intro kvs hl
    simp [extractCategoryName, getattrName, pyTruthy, hl]
  · intro fields v hl hf
    simp [extractCategoryName, getattrName, hl, hf]
  · intro fields hl
    simp [extractCategoryName, getattrName, pyTruthy, hl]

theorem C8_amended_category_extraction_witness :
    extractCategoryName (Value.dict [("name", Value.str "Food")]) = Value.str "Food" ∧
    extractCategoryName (Value.obj [("name", Value.str "Food")]) = Value.str "Food" ∧
    extractCategoryName Value.null = Value.null :=
  ⟨C8_amended_category_extraction.1 [("name", Value.str "Food")] (Value.str "Food") rfl,
   C8_amended_category_extraction.2.1 [("name", Value.str "Food")] (Value.str "Food") rfl rfl,
   C8_amended_category_extraction.2.2.1⟩

/-! ### Claim C9: bootstrap CLI -/

/-- C9: the bootstrap CLI exits with status 1 and a usage message when
given zero or more than one positional argument (`sys.argv` length other
than 2), and exits with status 1 with an explanatory message when the
credentials file is missing, when it cannot be read or parsed, and when
its top-level object lacks both the `installed` and `web`
credential-block shapes. -/
theorem C9_bootstrap_cli :
    (∀ (argv : List String) (file : CredFile), argv.length ≠ 2 →
      bootstrapMain argv file = .exitUsage ∧
      (bootstrapMain argv file).exitStatus = some 1) ∧
    (∀ argv : List String, argv.length = 2 →
      (bootstrapMain argv .missing = .exitError ∧
        (bootstrapMain argv .missing).exitStatus = some 1) ∧
      (bootstrapMain argv .invalid = .exitError ∧
        (bootstrapMain argv .invalid).exitStatus = some 1) ∧
      (∀ kvs, lookupPairs kvs "installed" = none → lookupPairs kvs "web" = none →
        bootstrapMain argv (.json kvs) = .exitError ∧
        (bootstrapMain argv (.json kvs)).exitStatus = some 1)) := by
  constructor
  · intro argv file ha
    rw [bootstrapMain, if_pos ha]
    exact ⟨rfl, rfl⟩
  · intro argv ha
    have hmain : ∀ f : CredFile, bootstrapMain argv f = get_refresh_token f := by
      intro f
      rw [bootstrapMain, if_neg (by rw [ha]; exact fun hne => hne rfl)]
    refine ⟨⟨?_, ?_⟩, ⟨?_, ?_⟩, ?_⟩ <;> try (rw [hmain]; rfl)
    intro kvs h1 h2
    rw [hmain]
    refine ⟨?_, ?_⟩ <;> simp [get_refresh_token, h1, h2, BootOutcome.exitStatus]

theorem C9_bootstrap_cli_witness :
    bootstrapMain ["get_gdrive_token.py"] CredFile.missing = BootOutcome.exitUsage ∧
    bootstrapMain ["get_gdrive_token.py", "creds.json"] CredFile.missing
      = BootOutcome.exitError ∧
    bootstrapMain ["get_gdrive_token.py", "creds.json"] CredFile.invalid
      = BootOutcome.exitError ∧
    bootstrapMain ["get_gdrive_token.py", "creds.json"] (CredFile.json [])
      = BootOutcome.exitError :=
  ⟨(C9_bootstrap_cli.1 ["get_gdrive_token.py"] CredFile.missing (by decide)).1,
   ((C9_bootstrap_cli.2 ["get_gdrive_token.py", "creds.json"] rfl).1).1,
   ((C9_bootstrap_cli.2 ["get_gdrive_token.py", "creds.json"] rfl).2.1).1,
   ((C9_bootstrap_cli.2 ["get_gdrive_token.py", "creds.json"] rfl).2.2 [] rfl rfl).1⟩


end FamilyExpenses
